import Mathlib

/-!
Verification of the command-line front end in `src/optipng/optipng.c`.

The development shallowly embeds the option scanner/resolver and the
dual-sink status reporter of the program.  C strings are modelled as
`List Char`; machine integers as `Nat`/`Int` with explicit bounds
(`ULONG_MAX`, `INT_MAX`); fatal `error(...)` calls as `Except.error`
carrying the diagnostic message.
-/

namespace Optipng

/-- Converts a Lean string literal into the `List Char` representation used
for C strings throughout this development. -/
def cl (s : String) : List Char := s.toList

/-! ## Character classification (ASCII, as in the C locale) -/

/-- C `isdigit` for ASCII: `'0'..'9'`. -/
def isdigitC (c : Char) : Bool := 48 ≤ c.toNat && c.toNat ≤ 57

/-- C `isspace` for ASCII: space, `\t`, `\n`, `\v`, `\f`, `\r`. -/
def isspaceC (c : Char) : Bool :=
  c.toNat == 32 || c.toNat == 9 || c.toNat == 10 ||
  c.toNat == 11 || c.toNat == 12 || c.toNat == 13

/-- C `isalpha` for ASCII: `'A'..'Z'` or `'a'..'z'`. -/
def isalphaC (c : Char) : Bool :=
  (65 ≤ c.toNat && c.toNat ≤ 90) || (97 ≤ c.toNat && c.toNat ≤ 122)

/-- C `tolower` for ASCII. -/
def tolowerC (c : Char) : Char :=
  if 65 ≤ c.toNat && c.toNat ≤ 90 then Char.ofNat (c.toNat + 32) else c

/-! ## Platform constants (LP64, as on the reference platform) -/

/-- `ULONG_MAX` on an LP64 platform. -/
def ULONG_MAX : Nat := 2 ^ 64 - 1

/-- `INT_MAX`. -/
def INT_MAX_N : Nat := 2 ^ 31 - 1

/-- `INT_MAX` as an integer. -/
def INT_MAX_I : Int := 2 ^ 31 - 1

/-! ## String utilities (`opng_strltrim`, `opng_strtail`, `opng_strcasecmp`) -/

/-- `opng_strltrim`: skip the leading whitespace characters. -/
def opng_strltrim (s : List Char) : List Char := s.dropWhile isspaceC

/-- `opng_strtail`: return up to `num` rightmost characters. -/
def opng_strtail (s : List Char) (num : Nat) : List Char :=
  if s.length ≤ num then s else s.drop (s.length - num)

/-- `opng_strcasecmp(a, b) == 0`: case-insensitive string equality. -/
def opng_strcasecmp_eq (a b : List Char) : Bool :=
  a.map tolowerC == b.map tolowerC

/-! ## Numeric parsing (`opng_str2ulong`) -/

/-- The digit-run scan performed by `strtoul` in base 10: consumes leading
decimal digits, accumulating the (unbounded) value onto `acc`, and returns
the value together with the unconsumed remainder of the string. -/
def digitsSplit : List Char → Nat → Nat × List Char
  | [], acc => (acc, [])
  | c :: cs, acc =>
      if isdigitC c then digitsSplit cs (acc * 10 + (c.toNat - 48))
      else (acc, c :: cs)

/-- The numeric value of a digit string (used to state theorems). -/
def digitsVal (ds : List Char) : Nat :=
  ds.foldl (fun a c => a * 10 + (c.toNat - 48)) 0

/-- The SI-suffix multiplier recognized by `opng_str2ulong`:
`'k'`/`'K'` ↦ 2^10, `'M'` ↦ 2^20, `'G'` ↦ 2^30, anything else ↦ 1. -/
def multOfChar (c : Char) : Nat :=
  if c == 'k' || c == 'K' then 1024
  else if c == 'M' then 1024 * 1024
  else if c == 'G' then 1024 * 1024 * 1024
  else 1

/-- The body of `opng_str2ulong` once the input has been left-trimmed and
starts with a decimal digit: the digit run is converted as by `strtoul`,
which clamps to `ULONG_MAX` on overflow; when multipliers are allowed, a
recognized SI suffix is consumed and applied, saturating to `ULONG_MAX` if
the multiplication would exceed it (the C code sets `errno = ERANGE` but
still returns 0, i.e. success); trailing garbage after optional
whitespace fails. -/
def str2ulong_tail (b : List Char) (allow_multiplier : Bool) : Option Nat :=
  let p := digitsSplit b 0
  let v0 := min p.1 ULONG_MAX
  let q : Nat × List Char :=
    if allow_multiplier then
      match p.2 with
      | [] => (1, [])
      | c2 :: r2 =>
          let m := multOfChar c2
          if 1 < m then (m, r2) else (1, c2 :: r2)
    else (1, p.2)
  let v1 :=
    if 1 < q.1 then
      if ULONG_MAX / q.1 < v0 then ULONG_MAX else v0 * q.1
    else v0
  if opng_strltrim q.2 == [] then some v1 else none

/-- `opng_str2ulong`: extract an unsigned long value from a string, with
an optional SI multiplier suffix.  Returns `none` on matching failure (no
leading decimal digit after trimming; the minus sign is not allowed, not
even for -0) or on trailing garbage. -/
def opng_str2ulong (in_str : List Char) (allow_multiplier : Bool) : Option Nat :=
  match opng_strltrim in_str with
  | [] => none
  | c :: cs =>
      if isdigitC c then str2ulong_tail (c :: cs) allow_multiplier
      else none

/-! ## Status reporter (`app_printf`, `app_print_cntrl`)

The reporter owns one boolean line-state (`start_of_line`) and writes to
two optional sinks: the interactive console (`con_file`) and the log file
(`log_file`).  An emission is modelled as the state after the call plus
the exact character sequences written to each sink during the call. -/

/-- Which sinks are open (`con_file != NULL` / `log_file != NULL`). -/
structure Sinks where
  con : Bool
  log : Bool
  deriving DecidableEq, Repr

/-- Result of one reporter call: the new `start_of_line` state and the
characters written to the console and to the log during the call. -/
structure Emission where
  sol : Bool
  conOut : List Char
  logOut : List Char
  deriving DecidableEq, Repr

/-- `app_printf`: write the text to every open sink; an empty text is a
no-op; otherwise `start_of_line` becomes whether the text ends in a
newline.  (The C function formats varargs first; the model takes the
already-formatted text.) -/
def app_printf (sk : Sinks) (sol : Bool) (text : List Char) : Emission :=
  if text == [] then { sol := sol, conOut := [], logOut := [] }
  else
    { sol := text.getLast? == some '\n'
      conOut := if sk.con then text else []
      logOut := if sk.log then text else [] }

/-- `app_print_cntrl`: the three-operation control protocol.
`'\r'` (code 13) resets the line; `'\v'` (code 11) is the conditional
newline; a negative code `N` with `-80 < N < 0` erases `|N|` characters,
in console only, and only when at start of line; every other case is the
defensive unhandled-code branch, which shows the `"<?>"` error marker. -/
def app_print_cntrl (sk : Sinks) (sol : Bool) (cntrl_code : Int) : Emission :=
  if cntrl_code == 13 then
    { sol := true
      conOut := if sk.con then ['\r'] else []
      logOut := if sk.log then ['\n'] else [] }
  else if cntrl_code == 11 then
    if !sol then
      { sol := true
        conOut := if sk.con then ['\n'] else []
        logOut := if sk.log then ['\n'] else [] }
    else
      { sol := sol, conOut := [], logOut := [] }
  else if cntrl_code < 0 && -80 < cntrl_code && sol then
    { sol := sol
      conOut := if sk.con then List.replicate (-cntrl_code).toNat ' ' ++ ['\r'] else []
      logOut := [] }
  else
    { sol := sol
      conOut := if sk.con then cl "<?>" else []
      logOut := if sk.log then cl "<?>" else [] }

/-! ## Configuration record (`struct opng_options`, `local_options`) -/

/-- The fields of `struct opng_options` as read and written by
`optipng.c`.  `optim_level` and `interlace` use -1 for "unset";
`window_bits` uses 0 for "unset"; the four set-valued fields are bitsets
accumulated by union; string options hold the raw argument text. -/
structure Opts where
  optim_level : Int
  interlace : Int
  window_bits : Int
  filter_set : Nat
  compr_level_set : Nat
  mem_level_set : Nat
  strategy_set : Nat
  backup : Bool
  clobber : Bool
  debug : Bool
  fix : Bool
  force : Bool
  full : Bool
  nb : Bool
  nc : Bool
  np : Bool
  nz : Bool
  preserve : Bool
  quiet : Bool
  simulate : Bool
  snip : Bool
  strip_all : Bool
  verbose : Bool
  out_name : Option (List Char)
  dir_name : Option (List Char)
  log_name : Option (List Char)
  deriving DecidableEq, Repr

/-- The state carried through the `parse_args` loop: the configuration
being accumulated, the `local_options` flags, the stop-switch flag, and
the residual file tokens (the args left for `process_files`, in order),
together with `file_count`. -/
structure PState where
  options : Opts
  help : Bool
  version : Bool
  stop_switch : Bool
  file_count : Nat
  files : List (List Char)
  deriving DecidableEq, Repr

/-- `memset(&options, 0, ...)` followed by `optim_level = -1` and
`interlace = -1`; `local_options` is a zero-initialized static. -/
def init_options : Opts :=
  { optim_level := -1, interlace := -1, window_bits := 0
    filter_set := 0, compr_level_set := 0, mem_level_set := 0, strategy_set := 0
    backup := false, clobber := false, debug := false, fix := false
    force := false, full := false, nb := false, nc := false, np := false
    nz := false, preserve := false, quiet := false, simulate := false
    snip := false, strip_all := false, verbose := false
    out_name := none, dir_name := none, log_name := none }

/-- The initial `parse_args` state. -/
def init_state : PState :=
  { options := init_options, help := false, version := false
    stop_switch := false, file_count := 0, files := [] }

/-! ## Option scanner (`scan_option`) -/

/-- The character-copy loop of `scan_option`: copies lowercased characters
into the key, stopping when the character after the one just copied is the
string end or whitespace (the option argument is then the remainder after
skipping the whitespace, or absent if nothing remains) or `'='` (the
option argument is then everything after the `'='`). -/
def scan_copy : List Char → List Char × Option (List Char)
  | [] => ([], none)
  | c :: rest =>
      match rest with
      | [] => ([tolowerC c], none)
      | d :: rest2 =>
          if isspaceC d then
            let r := (d :: rest2).dropWhile isspaceC
            ([tolowerC c], if r == [] then none else some r)
          else if d == '=' then
            ([tolowerC c], some rest2)
          else
            let p := scan_copy (d :: rest2)
            (tolowerC c :: p.1, p.2)

/-- `scan_option`: returns `none` when the token is not an option
introducer (it does not begin with `'-'`, or is exactly `"-"`); otherwise
returns the normalized (lowercased, dash-collapsed, possibly truncated)
option key and the inline option argument, if any.  A token consisting
only of dashes yields the reserved key `"-"`.  The key buffer holds 16
bytes, so the key is truncated to 15 characters. -/
def scan_option (str : List Char) : Option (List Char × Option (List Char)) :=
  match str with
  | '-' :: c1 :: rest =>
      let body := (c1 :: rest).dropWhile (fun c => c == '-')
      let body2 := if body == [] then ['-'] else body
      let p := scan_copy body2
      some (p.1.take 15, p.2)
  | _ => none

/-- The juxtaposed-argument normalization of `parse_args`: for keys whose
first letter is in `{f, i, o}` immediately followed by a digit, or keys
beginning `z`, letter, digit, the key is cut at its first digit and the
option argument is taken from the first digit of the original token. -/
def juxtapose (arg opt0 : List Char) (xopt0 : Option (List Char)) :
    List Char × Option (List Char) :=
  let c0 := opt0.getD 0 '\x00'
  let c1 := opt0.getD 1 '\x00'
  let c2 := opt0.getD 2 '\x00'
  if ((c0 == 'f' || c0 == 'i' || c0 == 'o') && isdigitC c1) ||
     (c0 == 'z' && isalphaC c1 && isdigitC c2) then
    let newOpt := opt0.takeWhile (fun c => !isdigitC c)
    let d := arg.dropWhile (fun c => !isdigitC c)
    (newOpt, if d == [] then none else some d)
  else (opt0, xopt0)

/-! ## Option-argument validation helpers -/

/-- The diagnostic produced by `err_option_arg`. -/
def err_option_arg_msg (opt : String) (opt_arg : Option (List Char)) : String :=
  match opt_arg with
  | none => "Missing argument for option " ++ opt
  | some a =>
      if opng_strltrim a == [] then "Missing argument for option " ++ opt
      else "Invalid argument for option " ++ opt ++ ": " ++ String.mk a

/-- `err_option_arg`: always a fatal usage error. -/
def err_option_arg {α : Type} (opt : String) (opt_arg : Option (List Char)) :
    Except String α :=
  .error (err_option_arg_msg opt opt_arg)

/-- `check_num_option`: extract a plain numeric value (no multiplier) and
range-check it against `[lowest, highest]` after checking it fits in an
`int`. -/
def check_num_option (opt : String) (opt_arg : List Char)
    (lowest highest : Int) : Except String Int :=
  match opng_str2ulong opt_arg false with
  | none => err_option_arg opt (some opt_arg)
  | some value =>
      if INT_MAX_N < value then err_option_arg opt (some opt_arg)
      else if (value : Int) < lowest || highest < (value : Int) then
        err_option_arg opt (some opt_arg)
      else .ok (value : Int)

/-- `check_power2_option`: extract a value (SI multipliers allowed) and
return its exact log2 if it is a power of two inside the clamped range
`[max lowest 0, min highest 62]` (62 = `CHAR_BIT * sizeof(long) - 2` on
LP64). -/
def check_power2_option (opt : String) (opt_arg : List Char)
    (lowest highest : Int) : Except String Int :=
  match opng_str2ulong opt_arg true with
  | none => err_option_arg opt (some opt_arg)
  | some value =>
      let lo : Nat := (max lowest 0).toNat
      let hi : Nat := (min highest 62).toNat
      match ((List.range (hi + 1)).filter
               (fun r => decide (lo ≤ r) && (2 ^ r == value))).head? with
      | some r => .ok (r : Int)
      | none => err_option_arg opt (some opt_arg)

/-- `check_obj_option`: only the literal argument `"all"` is accepted; a
4-letter argument is diagnosed as an unimplemented chunk name; anything
else is an invalid argument. -/
def check_obj_option (opt : String) (opt_arg : List Char) :
    Except String Unit :=
  if opt_arg == cl "all" then .ok ()
  else if decide (opt_arg.length = 4) && opt_arg.all isalphaC then
    .error "Manipulation of individual chunks is not implemented"
  else err_option_arg opt (some opt_arg)

/-! ## Rangeset codec

`opng_strparse_rangeset_to_bitset` lives in `bitset.c`, which is not part
of this source tree; only its caller `check_rangeset_option` is.  The
parser below is therefore modelled from the spec. -/

/-- Modelled from the spec: the sanity ceiling of the rangeset parser
("fails if any value exceeds a generous sanity ceiling", §4.1); the exact
constant is in the missing `bitset.c`. -/
def OPNG_RANGESET_CEILING : Nat := 1023

/-- Splits a character list at every comma (the separators of the rangeset
grammar). -/
def splitComma : List Char → List (List Char)
  | [] => [[]]
  | c :: rest =>
      let r := splitComma rest
      if c == ',' then [] :: r
      else
        match r with
        | [] => [[c]]
        | h :: t => (c :: h) :: t

/-- A leading digit run and the remainder; fails on an empty digit run. -/
def parse_digits (s : List Char) : Option (Nat × List Char) :=
  let ds := s.takeWhile isdigitC
  if ds == [] then none
  else some (digitsVal ds, s.dropWhile isdigitC)

/-- Modelled from the spec: one rangeset item — a single non-negative
integer, or an ascending `lo-hi` inclusive range; descending or malformed
items fail, as does any value above the sanity ceiling (§4.1). -/
def parse_item (s : List Char) : Option (Nat × Nat) :=
  match parse_digits s with
  | none => none
  | some (lo, rest) =>
      match rest with
      | [] => if lo ≤ OPNG_RANGESET_CEILING then some (lo, lo) else none
      | '-' :: rest2 =>
          match parse_digits rest2 with
          | some (hi, []) =>
              if lo ≤ hi && hi ≤ OPNG_RANGESET_CEILING then some (lo, hi)
              else none
          | _ => none
      | _ => none

/-- The bitset with exactly the bits `lo..hi` set (for `lo ≤ hi`). -/
def rangeBits (lo hi : Nat) : Nat := 2 ^ (hi + 1) - 2 ^ lo

/-- Modelled from the spec: the raw rangeset grammar — comma-separated
items, each contributing the bits of its inclusive range; the whole parse
fails if any item is malformed or exceeds the ceiling (§4.1). -/
def opng_parse_rangeset_raw (s : List Char) : Option Nat :=
  (splitComma s).foldl
    (fun acc it =>
      match acc, parse_item it with
      | some a, some (lo, hi) => some (a ||| rangeBits lo hi)
      | _, _ => none)
    (some 0)

/-- Modelled from the spec: `opng_strparse_rangeset_to_bitset` (missing
`bitset.c`), which parses the rangeset text against a validity mask; the
parsed set is intersected with the mask (§4.1: "Rangeset(\x22 3-5,7\x22 ,
domain 0-9) ... intersecting with a mask excluding 7 yields \x7b 3,4,5\x7d ").
Returns `none` exactly when the raw parse fails. -/
def opng_strparse_rangeset_to_bitset (s : List Char) (mask : Nat) :
    Option Nat :=
  (opng_parse_rangeset_raw s).map (fun p => p &&& mask)

/-- `check_rangeset_option`: accept only non-empty rangesets that fit in
the given mask; a failed parse, a result outside the mask, or an empty
result is a fatal usage error (`OPNG_BITSET_EMPTY` is 0). -/
def check_rangeset_option (opt : String) (opt_arg : List Char)
    (result_mask : Nat) : Except String Nat :=
  let r0 : Nat :=
    match opng_strparse_rangeset_to_bitset opt_arg result_mask with
    | some r => r
    | none => 0
  let r1 : Nat := if r0 &&& result_mask ≠ r0 then 0 else r0
  if r1 = 0 then err_option_arg opt (some opt_arg) else .ok r1

/-- Modelled from the spec: the filter-set validity mask (the constant is
declared in the missing `optipng.h`); the value does not affect any claim. -/
def OPNG_FILTER_SET_MASK : Nat := 0x3F

/-- Modelled from the spec: the compression-level-set validity mask (from
the missing `optipng.h`). -/
def OPNG_COMPR_LEVEL_SET_MASK : Nat := 0x3FE

/-- Modelled from the spec: the memory-level-set validity mask (from the
missing `optipng.h`). -/
def OPNG_MEM_LEVEL_SET_MASK : Nat := 0x3FE

/-- Modelled from the spec: the strategy-set validity mask (from the
missing `optipng.h`). -/
def OPNG_STRATEGY_SET_MASK : Nat := 0x0F

/-! ## Option resolver (`parse_args`) -/

/-- The simple-option chain of `parse_args` (options without arguments),
in source order: returns the updated state when the key matches a simple
option, `none` otherwise.  Prefix matches mirror
`strncmp(name, opt, opt_len) == 0` with `opt_len = strlen(opt)`, i.e. the
key must be a prefix of the full name; the explicit `opt_len >=` bounds
are the hand-picked minimum abbreviation lengths. -/
def match_simple (opt : List Char) (st : PState) : Option PState :=
  let n := opt.length
  if opt == cl "-" then
    some { st with stop_switch := true }
  else if opt == cl "?" || opt.isPrefixOf (cl "help") then
    some { st with help := true }
  else if opt.isPrefixOf (cl "backup") || opt.isPrefixOf (cl "keep") then
    some { st with options := { st.options with backup := true } }
  else if opt.isPrefixOf (cl "clobber") then
    some { st with options := { st.options with clobber := true } }
  else if opt == cl "debug" then
    some { st with options := { st.options with debug := true } }
  else if opt.isPrefixOf (cl "fix") && decide (2 ≤ n) then
    some { st with options := { st.options with fix := true } }
  else if opt.isPrefixOf (cl "force") && decide (2 ≤ n) then
    some { st with options := { st.options with force := true } }
  else if opt.isPrefixOf (cl "full") && decide (2 ≤ n) then
    some { st with options := { st.options with full := true } }
  else if opt == cl "nb" then
    some { st with options := { st.options with nb := true } }
  else if opt == cl "nc" then
    some { st with options := { st.options with nc := true } }
  else if opt == cl "np" then
    some { st with options := { st.options with np := true } }
  else if opt == cl "nx" then
    some { st with options := { st.options with nb := true, nc := true, np := true } }
  else if opt == cl "nz" then
    some { st with options := { st.options with nz := true } }
  else if opt.isPrefixOf (cl "preserve") then
    some { st with options := { st.options with preserve := true } }
  else if opt.isPrefixOf (cl "quiet") ||
          (opt.isPrefixOf (cl "silent") && decide (3 ≤ n)) then
    some { st with options := { st.options with quiet := true } }
  else if opt.isPrefixOf (cl "simulate") && decide (3 ≤ n) then
    some { st with options := { st.options with simulate := true } }
  else if opt.isPrefixOf (cl "snip") && decide (2 ≤ n) then
    some { st with options := { st.options with snip := true } }
  else if opt == cl "v" then
    some { st with options := { st.options with verbose := true }, version := true }
  else if opt.isPrefixOf (cl "verbose") && decide (4 ≤ n) then
    some { st with options := { st.options with verbose := true } }
  else if opt.isPrefixOf (cl "version") && decide (4 ≤ n) then
    some { st with version := true }
  else none

/-- The argument-taking option chain of `parse_args`, in source order.
`arg` is the original token (used in the "Unrecognized option"
diagnostic), `xopt` the option argument after inline extraction or
consumption of the following token. -/
def match_value (opt arg xopt : List Char) (st : PState) :
    Except String PState :=
  if opt == cl "o" then
    match check_num_option "-o" xopt 0 INT_MAX_I with
    | .error e => .error e
    | .ok val =>
        if st.options.optim_level < 0 then
          .ok { st with options := { st.options with optim_level := val } }
        else if st.options.optim_level ≠ val then
          .error "Multiple optimization levels are not permitted"
        else .ok st
  else if opt == cl "i" then
    match check_num_option "-i" xopt 0 1 with
    | .error e => .error e
    | .ok val =>
        if st.options.interlace < 0 then
          .ok { st with options := { st.options with interlace := val } }
        else if st.options.interlace ≠ val then
          .error "Multiple interlace types are not permitted"
        else .ok st
  else if opt == cl "f" then
    match check_rangeset_option "-f" xopt OPNG_FILTER_SET_MASK with
    | .error e => .error e
    | .ok set =>
        .ok { st with options :=
                { st.options with filter_set := st.options.filter_set ||| set } }
  else if opt == cl "zc" then
    match check_rangeset_option "-zc" xopt OPNG_COMPR_LEVEL_SET_MASK with
    | .error e => .error e
    | .ok set =>
        .ok { st with options :=
                { st.options with compr_level_set := st.options.compr_level_set ||| set } }
  else if opt == cl "zm" then
    match check_rangeset_option "-zm" xopt OPNG_MEM_LEVEL_SET_MASK with
    | .error e => .error e
    | .ok set =>
        .ok { st with options :=
                { st.options with mem_level_set := st.options.mem_level_set ||| set } }
  else if opt == cl "zs" then
    match check_rangeset_option "-zs" xopt OPNG_STRATEGY_SET_MASK with
    | .error e => .error e
    | .ok set =>
        .ok { st with options :=
                { st.options with strategy_set := st.options.strategy_set ||| set } }
  else if opt == cl "zw" then
    match check_power2_option "-zw" xopt 8 15 with
    | .error e => .error e
    | .ok val =>
        if st.options.window_bits = 0 then
          .ok { st with options := { st.options with window_bits := val } }
        else if st.options.window_bits ≠ val then
          .error "Multiple window sizes are not permitted"
        else .ok st
  else if opt.isPrefixOf (cl "strip") && decide (2 ≤ opt.length) then
    match check_obj_option "-strip" xopt with
    | .error e => .error e
    | .ok _ =>
        .ok { st with options := { st.options with strip_all := true } }
  else if opt.isPrefixOf (cl "out") && decide (2 ≤ opt.length) then
    if st.options.out_name.isSome then
      .error "Multiple output file names are not permitted"
    else if xopt == [] then err_option_arg "-out" none
    else .ok { st with options := { st.options with out_name := some xopt } }
  else if opt.isPrefixOf (cl "dir") then
    if st.options.dir_name.isSome then
      .error "Multiple output dir names are not permitted"
    else if xopt == [] then err_option_arg "-dir" none
    else .ok { st with options := { st.options with dir_name := some xopt } }
  else if opt.isPrefixOf (cl "log") then
    if st.options.log_name.isSome then
      .error "Multiple log file names are not permitted"
    else if xopt == [] then err_option_arg "-log" none
    else .ok { st with options := { st.options with log_name := some xopt } }
  else
    .error ("Unrecognized option: " ++ String.mk arg)

/-- Leaves a token in the residual file list (`++file_count; continue;`
with the arg left in `argv` for `process_files`). -/
def addFile (st : PState) (arg : List Char) : PState :=
  { st with file_count := st.file_count + 1, files := st.files ++ [arg] }

/-- One iteration of the `parse_args` token loop, for the token `arg`
followed by the tokens `rest`: a token is a filename once the stop-switch
is set or when it is not an option introducer; an option token is
normalized, matched first against the simple-option chain (where an
attached argument is fatal), and otherwise against the argument-taking
chain, consuming the following token as argument when no inline argument
is present (an empty string is substituted at the end of the line).
Returns the updated state plus whether the following token was consumed
as an option argument. -/
def classify (arg : List Char) (rest : List (List Char)) (st : PState) :
    Except String (PState × Bool) :=
  if st.stop_switch then .ok (addFile st arg, false)
  else
    match scan_option arg with
    | none => .ok (addFile st arg, false)
    | some (opt0, xopt0) =>
        let oj := juxtapose arg opt0 xopt0
        match match_simple oj.1 st with
        | some st2 =>
            match oj.2 with
            | some _ => .error ("No argument allowed for option: " ++ String.mk arg)
            | none => .ok (st2, false)
        | none =>
            match oj.2 with
            | some x => (match_value oj.1 arg x st).map (fun st2 => (st2, false))
            | none =>
                match rest with
                | [] => (match_value oj.1 arg [] st).map (fun st2 => (st2, false))
                | y :: _ => (match_value oj.1 arg y st).map (fun st2 => (st2, true))

/-- The token loop of `parse_args`: iterate `classify` over the tokens,
skipping the following token whenever it was consumed as an option
argument. -/
def parse_loop : List (List Char) → PState → Except String PState
  | [], st => .ok st
  | arg :: rest, st =>
      match classify arg rest st with
      | .error e => .error e
      | .ok (st2, false) => parse_loop rest st2
      | .ok (st2, true) =>
          match rest with
          | [] => .ok st2
          | _ :: rest2 => parse_loop rest2 st2

/-- The operation selected by the program after parsing. -/
inductive Operation where
  | run
  | show_help
  | show_version
  deriving DecidableEq, Repr

/-- The outcome of `parse_args`: the validated configuration, the local
help/version flags, the selected operation and the residual files. -/
structure ParseResult where
  options : Opts
  help : Bool
  version : Bool
  operation : Operation
  file_count : Nat
  files : List (List Char)
  deriving DecidableEq, Repr

/-- True when the log name fails the mandatory case-insensitive `".log"`
suffix check. -/
def bad_log_name : Option (List Char) → Bool
  | none => false
  | some l => !opng_strcasecmp_eq (cl ".log") (opng_strtail l 4)

/-- The finalization step of `parse_args`: the cross-field invariants and
the operation selection. -/
def finalize (st : PState) : Except String ParseResult :=
  if st.options.out_name.isSome && decide (1 < st.file_count) then
    .error "The option -out requires one input file"
  else if st.options.out_name.isSome && st.options.dir_name.isSome then
    .error "The options -out and -dir are mutually exclusive"
  else if bad_log_name st.options.log_name then
    .error "To prevent accidental data corruption, the log file name must end with \".log\""
  else
    .ok { options := st.options, help := st.help, version := st.version
          operation :=
            if st.help then .show_help
            else if st.file_count ≠ 0 then .run
            else if st.version then .show_version
            else .show_help
          file_count := st.file_count, files := st.files }

/-- `parse_args` over the argument tokens (`argv[1..]`). -/
def parse_args (args : List (List Char)) : Except String ParseResult :=
  match parse_loop args init_state with
  | .error e => .error e
  | .ok st => finalize st

/-! ## Theorems about the claims -/

/-- `parse_args` reduces to `finalize` of the loop result when the loop
succeeds. -/
lemma parse_args_ok_finalize (args : List (List Char)) (st : PState)
    (hp : parse_loop args init_state = .ok st) : parse_args args = finalize st := by
  unfold parse_args
  rw [hp]

/-- Intersecting with a mask is idempotent. -/
lemma land_mask_idem (p m : Nat) : (p &&& m) &&& m = p &&& m := by
  rw [Nat.land_assoc]
  simp

/-- `check_rangeset_option` characterized: the parsed set intersected
with the mask is returned when non-empty, every other case is the
invalid-argument error (the subset re-check can never fire because the
parser already intersects with the mask). -/
lemma check_rangeset_eq (opt : String) (arg : List Char) (mask : Nat) :
    check_rangeset_option opt arg mask =
      (match opng_parse_rangeset_raw arg with
       | none => err_option_arg opt (some arg)
       | some p =>
           if p &&& mask = 0 then err_option_arg opt (some arg)
           else .ok (p &&& mask)) := by
  unfold check_rangeset_option opng_strparse_rangeset_to_bitset
  cases hp : opng_parse_rangeset_raw arg with
  | none => simp
  | some p => simp [land_mask_idem]

/-- Validation succeeds exactly when the raw parse succeeds and the
parsed set intersected with the mask is non-empty, and the returned set
is that intersection. -/
lemma c1_iff (opt : String) (arg : List Char) (mask r : Nat) :
    check_rangeset_option opt arg mask = .ok r ↔
      (∃ p, opng_parse_rangeset_raw arg = some p ∧ p &&& mask = r ∧ r ≠ 0) := by
  rw [check_rangeset_eq]
  cases hp : opng_parse_rangeset_raw arg with
  | none =>
      constructor
      · intro h
        simp [err_option_arg] at h
      · rintro ⟨p, hps, -, -⟩
        cases hps
  | some p =>
      show (if p &&& mask = 0 then err_option_arg opt (some arg)
            else Except.ok (p &&& mask)) = Except.ok r ↔
        ∃ p2, some p = some p2 ∧ p2 &&& mask = r ∧ r ≠ 0
      by_cases hz : p &&& mask = 0
      · rw [if_pos hz]
        constructor
        · intro h
          simp [err_option_arg] at h
        · rintro ⟨p2, hps, hpr, hr⟩
          cases hps
          exact absurd (hz ▸ hpr).symm hr
      · rw [if_neg hz]
        constructor
        · intro h
          cases h
          exact ⟨p, rfl, rfl, hz⟩
        · rintro ⟨p2, hps, hpr, hr⟩
          cases hps
          rw [hpr]

/-- C1: for every rangeset-valued option argument and validity mask,
validation succeeds exactly when every item is well-formed and within the
sanity ceiling (the raw parse succeeds) and the parsed set intersected
with the mask is non-empty — the returned set being that intersection.
Concretely, "3-5,7" parses raw to bits 3,4,5,7 (= 184); against mask 895
(domain 0-9 minus 7) it succeeds with bits 3,4,5 (= 56); against mask 839
(domain 0-9 minus 3,4,5,7) the intersection is empty and validation
fails. -/
theorem c1_rangeset_validation :
    (∀ (opt : String) (arg : List Char) (mask r : Nat),
       check_rangeset_option opt arg mask = .ok r ↔
         (∃ p, opng_parse_rangeset_raw arg = some p ∧ p &&& mask = r ∧ r ≠ 0)) ∧
    opng_parse_rangeset_raw (cl "3-5,7") = some 184 ∧
    (184 : Nat) = 2 ^ 3 + 2 ^ 4 + 2 ^ 5 + 2 ^ 7 ∧
    check_rangeset_option "-f" (cl "3-5,7") 895 = .ok 56 ∧
    (56 : Nat) = 2 ^ 3 + 2 ^ 4 + 2 ^ 5 ∧
    check_rangeset_option "-f" (cl "3-5,7") 839 =
      .error "Invalid argument for option -f: 3-5,7" ∧
    (184 : Nat) &&& 839 = 0 :=
  ⟨c1_iff, rfl, by norm_num, rfl, by norm_num, rfl, by decide⟩

/-- Witness for `c1_rangeset_validation`: instantiating the equivalence at
the concrete parse of "3-5,7" against mask 895 yields the set 56. -/
theorem c1_rangeset_validation_witness :
    check_rangeset_option "-f" (cl "3-5,7") 895 = .ok 56 :=
  (c1_rangeset_validation.1 "-f" (cl "3-5,7") 895 56).mpr ⟨184, rfl, rfl, by decide⟩

/-- C2, as stated, is false on the code: when line-state is not
start-of-line, an Erase-N control code (here N = -5, with both sinks
open) does not leave the interactive sink untouched — it falls into the
defensive unhandled-code branch and writes the error marker to BOTH
sinks. -/
theorem c2_erase_counterexample :
    app_print_cntrl { con := true, log := true } false (-5) =
      { sol := false, conOut := cl "<?>", logOut := cl "<?>" } ∧
    cl "<?>" ≠ ([] : List Char) :=
  ⟨rfl, by decide⟩

/-- C2 (amended): for every negative control code N with magnitude below
80, at start-of-line the Erase-N operation writes |N| space characters
followed by a carriage return to the interactive sink only and nothing to
the log sink (line-state unchanged); when line-state is NOT start-of-line
the operation falls into the defensive unhandled-code branch and writes
the error marker to every active sink. -/
theorem c2_erase_n (sk : Sinks) (N : Int) (hlo : -80 < N) (hhi : N < 0) :
    app_print_cntrl sk true N =
      { sol := true
        conOut := if sk.con then List.replicate (-N).toNat ' ' ++ ['\r'] else []
        logOut := [] } ∧
    app_print_cntrl sk false N =
      { sol := false
        conOut := if sk.con then cl "<?>" else []
        logOut := if sk.log then cl "<?>" else [] } := by
  have h13 : (N == 13) = false := by simp; omega
  have h11 : (N == 11) = false := by simp; omega
  have hneg : decide (N < 0) = true := by simp [hhi]
  have hgt : decide (-80 < N) = true := by simp [hlo]
  constructor
  · simp [app_print_cntrl, h13, h11, hneg, hgt]
  · simp [app_print_cntrl, h13, h11, hneg, hgt]

/-- Witness for `c2_erase_n` at N = -5 with both sinks open: five spaces
then a carriage return in console, nothing in the log. -/
theorem c2_erase_n_witness :
    app_print_cntrl { con := true, log := true } true (-5) =
      { sol := true
        conOut := List.replicate 5 ' ' ++ ['\r']
        logOut := [] } := by
  have h := (c2_erase_n { con := true, log := true } (-5) (by decide) (by decide)).1
  simpa using h

/-- A list of dashes has nothing left after dropping leading dashes. -/
lemma all_dashes_dropWhile (l : List Char) (h : ∀ x ∈ l, x = '-') :
    l.dropWhile (fun c => c == '-') = [] := by
  induction l with
  | nil => rfl
  | cons a l ih =>
      have ha := h a (by simp)
      simp only [List.dropWhile_cons, ha]
      simpa using ih (fun x hx => h x (by simp [hx]))

/-- A token consisting only of dashes (at least two of them) scans to the
reserved stop-switch key `"-"` with no attached argument. -/
lemma scan_option_all_dashes (t : List Char) (hlen : 2 ≤ t.length)
    (hdash : ∀ x ∈ t, x = '-') :
    scan_option t = some (['-'], none) := by
  match t, hlen with
  | a :: b :: ts, _ =>
    have ha : a = '-' := hdash a (by simp)
    subst ha
    have hdrop : (b :: ts).dropWhile (fun c => c == '-') = [] := by
      apply all_dashes_dropWhile
      intro x hx
      exact hdash x (by simp [hx])
    simp [scan_option, hdrop, scan_copy]
    decide

/-- Once the stop-switch flag is set, the rest of the loop only collects
filenames: every remaining token is appended to the residual file list,
the configuration is untouched, and no error can arise. -/
lemma parse_loop_stop (rest : List (List Char)) (st : PState)
    (h : st.stop_switch = true) :
    parse_loop rest st =
      .ok { st with file_count := st.file_count + rest.length
                    files := st.files ++ rest } := by
  induction rest generalizing st with
  | nil => cases st; simp [parse_loop]
  | cons a rest ih =>
      simp only [parse_loop, classify, if_pos h]
      rw [ih (addFile st a) (by simp [addFile, h])]
      cases st
      simp [addFile]
      omega

/-- C3: scanning a token consisting only of dashes (length ≥ 2, e.g.
`"--"`) sets the stop-switch flag, and every subsequent token — whatever
its content, dashes included — is classified as a filename (appended to
the residual file list), is never matched against the option table (the
configuration and flags are exactly those of the prior state), and can
never raise an option error. -/
theorem c3_stop_switch (t : List Char) (rest : List (List Char)) (st : PState)
    (hstop : st.stop_switch = false) (hlen : 2 ≤ t.length)
    (hdash : ∀ x ∈ t, x = '-') :
    parse_loop (t :: rest) st =
      .ok { st with stop_switch := true
                    file_count := st.file_count + rest.length
                    files := st.files ++ rest } := by
  have hj : juxtapose t ['-'] none = (['-'], none) := rfl
  have hm : match_simple ['-'] st = some { st with stop_switch := true } := rfl
  simp only [parse_loop, classify, if_neg (by simp [hstop] : ¬st.stop_switch = true),
             scan_option_all_dashes t hlen hdash, hj, hm]
  rw [parse_loop_stop rest _ (by simp)]

/-- Witness for `c3_stop_switch`: after `"--"`, the token `"-o9"` — which
looks like an option — is kept as a filename and parsing succeeds. -/
theorem c3_stop_switch_witness :
    parse_loop [cl "--", cl "-o9"] init_state =
      .ok { init_state with stop_switch := true, file_count := 1
                            files := [cl "-o9"] } := by
  have h := c3_stop_switch (cl "--") [cl "-o9"] init_state rfl (by decide) (by decide)
  exact h

/-- C5: under the prefix-abbreviation rule, the key "h" resolves to help;
the one-character key "s" matches no simple-option entry and the token
"-s" is a fatal "unrecognized option" error; "sil" resolves to
quiet/silent and "sim" to simulate (minimum declared length 3 each). -/
theorem c5_abbreviation_resolution :
    (∀ st : PState, match_simple (cl "h") st = some { st with help := true }) ∧
    (∀ st : PState, match_simple (cl "s") st = none) ∧
    parse_args [cl "-s"] = .error "Unrecognized option: -s" ∧
    (∀ st : PState, match_simple (cl "sil") st =
      some { st with options := { st.options with quiet := true } }) ∧
    (∀ st : PState, match_simple (cl "sim") st =
      some { st with options := { st.options with simulate := true } }) ∧
    parse_args [cl "-h"] =
      .ok { options := init_options, help := true, version := false
            operation := .show_help, file_count := 0, files := [] } :=
  ⟨fun _ => rfl, fun _ => rfl, rfl, fun _ => rfl, fun _ => rfl, rfl⟩

/-- C4: the single-slot optimization-level field: a first -o assignment
(unset field, value -1) sets it; a later -o with the same value leaves
the configuration unchanged and succeeds; a later -o with a different
value is a fatal error — and concretely `-o2 -o2` yields level 2 while
`-o2 -o3` terminates parsing with the conflict diagnostic, before any
file is processed. -/
theorem c4_optim_level_single_slot :
    (∀ (st : PState) (arg x : List Char) (v : Int),
       check_num_option "-o" x 0 INT_MAX_I = .ok v →
       (st.options.optim_level < 0 →
          match_value (cl "o") arg x st =
            .ok { st with options := { st.options with optim_level := v } }) ∧
       (st.options.optim_level = v → match_value (cl "o") arg x st = .ok st) ∧
       (0 ≤ st.options.optim_level → st.options.optim_level ≠ v →
          match_value (cl "o") arg x st =
            .error "Multiple optimization levels are not permitted")) ∧
    (parse_args [cl "-o2", cl "-o2"]).map (fun r => r.options.optim_level) = .ok 2 ∧
    parse_args [cl "-o2", cl "-o3"] =
      .error "Multiple optimization levels are not permitted" := by
  refine ⟨?_, rfl, rfl⟩
  intro st arg x v h
  have u1 : match_value (cl "o") arg x st =
      (match check_num_option "-o" x 0 INT_MAX_I with
       | .error e => .error e
       | .ok val =>
           if st.options.optim_level < 0 then
             .ok { st with options := { st.options with optim_level := val } }
           else if st.options.optim_level ≠ val then
             .error "Multiple optimization levels are not permitted"
           else .ok st) := rfl
  have u2 : match_value (cl "o") arg x st =
      (if st.options.optim_level < 0 then
         .ok { st with options := { st.options with optim_level := v } }
       else if st.options.optim_level ≠ v then
         .error "Multiple optimization levels are not permitted"
       else .ok st) := by rw [u1, h]
  refine ⟨?_, ?_, ?_⟩
  · intro hlt
    rw [u2, if_pos hlt]
  · intro heq
    rcases lt_or_le st.options.optim_level 0 with hlt | hge
    · rw [u2, if_pos hlt, ← heq]
    · rw [u2, if_neg (by omega), if_neg (by simp [heq])]
  · intro hge hne
    rw [u2, if_neg (by omega), if_pos hne]

/-- Witness for `c4_optim_level_single_slot`: a first `-o 2` on the fresh
configuration sets the level to 2. -/
theorem c4_optim_level_single_slot_witness :
    match_value (cl "o") (cl "-o2") (cl "2") init_state =
      .ok { init_state with options := { init_state.options with optim_level := 2 } } :=
  (c4_optim_level_single_slot.1 init_state (cl "-o2") (cl "2") 2 rfl).1 (by decide)

/-- C8: the Conditional-newline control operation (code `'\v'`) emits one
newline to every active sink and sets start-of-line when mid-line, emits
nothing when already at start-of-line, and is idempotent; the concrete
run "abc" followed by two Conditional-newlines emits exactly one newline
per sink in total. -/
theorem c8_conditional_newline :
    (∀ sk : Sinks, app_print_cntrl sk false 11 =
      { sol := true
        conOut := if sk.con then ['\n'] else []
        logOut := if sk.log then ['\n'] else [] }) ∧
    (∀ sk : Sinks, app_print_cntrl sk true 11 =
      { sol := true, conOut := [], logOut := [] }) ∧
    (∀ (sk : Sinks) (sol : Bool),
      app_print_cntrl sk (app_print_cntrl sk sol 11).sol 11 =
        { sol := true, conOut := [], logOut := [] }) ∧
    (let sk : Sinks := { con := true, log := true }
     let e1 := app_printf sk true (cl "abc")
     let e2 := app_print_cntrl sk e1.sol 11
     let e3 := app_print_cntrl sk e2.sol 11
     e1.conOut.count '\n' + e2.conOut.count '\n' + e3.conOut.count '\n' = 1 ∧
     e1.logOut.count '\n' + e2.logOut.count '\n' + e3.logOut.count '\n' = 1) :=
  ⟨fun _ => rfl, fun _ => rfl,
   fun sk sol => by cases sol <;> rfl,
   by constructor <;> rfl⟩

/-- A digit character is not whitespace. -/
lemma isdigitC_not_space {c : Char} (h : isdigitC c = true) : isspaceC c = false := by
  simp [isdigitC] at h
  simp [isspaceC]
  omega

/-- The `strtoul` digit scan walks through a digit run and continues on
the remainder with the accumulated value. -/
lemma digitsSplit_append (ds r : List Char) (acc : Nat)
    (hd : ∀ x ∈ ds, isdigitC x = true) :
    digitsSplit (ds ++ r) acc =
      digitsSplit r (ds.foldl (fun a c => a * 10 + (c.toNat - 48)) acc) := by
  induction ds generalizing acc with
  | nil => simp
  | cons d ds ih =>
      have hdd := hd d (by simp)
      simp only [List.cons_append, digitsSplit, hdd, if_true, List.foldl_cons]
      exact ih _ (fun x hx => hd x (by simp [hx]))

/-- The overflow guard of `opng_str2ulong` is exactly saturation: guarding
the multiplication by `N / m < v` and substituting `N` computes
`min (v * m) N`. -/
lemma sat_mul_eq_min (v m N : Nat) (hm : 0 < m) :
    (if N / m < v then N else v * m) = min (v * m) N := by
  rcases le_or_lt v (N / m) with hle | hlt
  · rw [if_neg (not_lt.mpr hle), min_eq_left]
    calc v * m ≤ N / m * m := Nat.mul_le_mul_right m hle
      _ ≤ N := Nat.div_mul_le_self N m
  · rw [if_pos hlt, min_eq_right]
    have := (Nat.div_lt_iff_lt_mul hm).mp hlt
    omega

/-- A digit run followed by a recognized multiplier suffix parses to the
digit value (clamped as by `strtoul`) times the multiplier, saturated at
`ULONG_MAX`. -/
lemma str2ulong_digits_mult (ds : List Char) (c : Char)
    (hne : ds ≠ []) (hd : ∀ x ∈ ds, isdigitC x = true)
    (hc : isdigitC c = false) (hm : 1 < multOfChar c) :
    opng_str2ulong (ds ++ [c]) true =
      some (min (min (digitsVal ds) ULONG_MAX * multOfChar c) ULONG_MAX) := by
  match ds, hne with
  | d :: ds', _ =>
    have hdd : isdigitC d = true := hd d (by simp)
    have hltrim : opng_strltrim (d :: (ds' ++ [c])) = d :: (ds' ++ [c]) := by
      simp [opng_strltrim, List.dropWhile_cons, isdigitC_not_space hdd]
    have hsplit : digitsSplit (d :: (ds' ++ [c])) 0 = (digitsVal (d :: ds'), [c]) := by
      have : d :: (ds' ++ [c]) = (d :: ds') ++ [c] := by simp
      rw [this, digitsSplit_append _ _ _ hd]
      simp [digitsSplit, hc, digitsVal]
    simp only [List.cons_append, opng_str2ulong, hltrim, hdd, if_true,
               str2ulong_tail, hsplit]
    simp only [if_pos hm]
    rw [sat_mul_eq_min _ _ _ (by omega)]
    simp [opng_strltrim]

/-- C6: for every numeric string in multiplier-aware mode, a trailing
`k`/`K` multiplies the digit value by 2^10, `M` by 2^20 and `G` by 2^30,
saturating at the maximum representable unsigned value instead of
wrapping (the `min _ ULONG_MAX` form); concretely "2k" parses to 2048 and
`ULONG_MAX` followed by `G` saturates to `ULONG_MAX`. -/
theorem c6_multiplier_saturation :
    (∀ (ds : List Char) (c : Char), ds ≠ [] → (∀ x ∈ ds, isdigitC x = true) →
       (c = 'k' ∨ c = 'K' ∨ c = 'M' ∨ c = 'G') →
       opng_str2ulong (ds ++ [c]) true =
         some (min (min (digitsVal ds) ULONG_MAX * multOfChar c) ULONG_MAX)) ∧
    opng_str2ulong (cl "2k") true = some 2048 ∧
    opng_str2ulong (cl "18446744073709551615G") true = some ULONG_MAX := by
  refine ⟨?_, rfl, rfl⟩
  intro ds c hne hd hc
  rcases hc with h | h | h | h <;> subst h <;>
    exact str2ulong_digits_mult ds _ hne hd (by decide) (by decide)

/-- Witness for `c6_multiplier_saturation`: the digit string "2" with
suffix `'k'`. -/
theorem c6_multiplier_saturation_witness :
    opng_str2ulong (cl "2" ++ ['k']) true =
      some (min (min (digitsVal (cl "2")) ULONG_MAX * multOfChar 'k') ULONG_MAX) :=
  c6_multiplier_saturation.1 (cl "2") 'k' (by decide) (by decide) (Or.inl rfl)

/-- C9: the flag option -nx is a compound flag: the exact key "nx" sets
the three suppress flags nb, nc and np simultaneously and leaves every
other field unchanged (both at the table-match level and through a full
`parse_args` run). -/
theorem c9_nx_compound :
    (∀ st : PState, match_simple (cl "nx") st =
      some { st with options := { st.options with nb := true, nc := true, np := true } }) ∧
    (parse_args [cl "-nx"]).map (fun r => r.options) =
      .ok { init_options with nb := true, nc := true, np := true } :=
  ⟨fun _ => rfl, rfl⟩

/-- C7, as stated, is false on the code: the finalize check is
`file_count > 1`, so an invocation whose output-filename field is set but
which has ZERO residual filenames — here `-out a.png`, where `a.png` is
consumed as the option argument — is not a fatal error: resolution
succeeds with `file_count = 0`. -/
theorem c7_out_counterexample :
    (parse_args [cl "-out", cl "a.png"]).map
        (fun r => (r.options.out_name.isSome, r.options.dir_name.isSome, r.file_count)) =
      .ok (true, false, 0) := rfl

/-- C7 (amended): after all tokens are consumed, if the output-filename
field is set then resolution terminates with a fatal usage error unless
there is AT MOST one residual filename and the output-directory field is
unset; in particular an invocation containing both -out and -dir is
fatal. -/
theorem c7_out_dir_invariant :
    (∀ (args : List (List Char)) (r : ParseResult),
       parse_args args = .ok r → r.options.out_name.isSome = true →
       r.file_count ≤ 1 ∧ r.options.dir_name = none) ∧
    (∀ st : PState, st.options.out_name.isSome = true →
       (1 < st.file_count ∨ st.options.dir_name.isSome = true) →
       ∃ e, finalize st = .error e) ∧
    parse_args [cl "-out", cl "a.png", cl "-dir", cl "b"] =
      .error "The options -out and -dir are mutually exclusive" := by
  refine ⟨?_, ?_, rfl⟩
  · intro args r h hout
    cases hp : parse_loop args init_state with
    | error e => rw [parse_args, hp] at h; cases h
    | ok st =>
        rw [parse_args_ok_finalize args st hp] at h
        unfold finalize at h
        by_cases h1 : (st.options.out_name.isSome && decide (1 < st.file_count)) = true
        · rw [if_pos h1] at h; cases h
        · rw [if_neg h1] at h
          by_cases h2 : (st.options.out_name.isSome && st.options.dir_name.isSome) = true
          · rw [if_pos h2] at h; cases h
          · rw [if_neg h2] at h
            by_cases h3 : bad_log_name st.options.log_name = true
            · rw [if_pos h3] at h; cases h
            · rw [if_neg h3] at h
              cases h
              have hout2 : st.options.out_name.isSome = true := hout
              simp [hout2] at h1 h2
              refine ⟨?_, ?_⟩
              · show st.file_count ≤ 1
                omega
              · show st.options.dir_name = none
                simpa [Option.isSome_iff_exists] using h2
  · intro st hout hor
    unfold finalize
    split_ifs with h1 h2 h3
    · exact ⟨_, rfl⟩
    · exact ⟨_, rfl⟩
    · exact ⟨_, rfl⟩
    · exfalso
      simp [hout] at h1 h2
      rcases hor with hgt | hdir
      · omega
      · rw [h2] at hdir; cases hdir

/-- The result of the run `-out x f.png`, used by the witness below. -/
def c7_run_example : ParseResult :=
  { options := { init_options with out_name := some (cl "x") }
    help := false, version := false, operation := .run
    file_count := 1, files := [cl "f.png"] }

/-- Witness for `c7_out_dir_invariant`: the successful run `-out x f.png`
indeed has at most one residual filename and no output directory. -/
theorem c7_out_dir_invariant_witness :
    c7_run_example.file_count ≤ 1 ∧ c7_run_example.options.dir_name = none :=
  c7_out_dir_invariant.1 [cl "-out", cl "x", cl "f.png"] c7_run_example rfl rfl

/-- C10: the exact one-letter key "v" sets both the verbose flag and the
(local) show-version flag, whereas abbreviations of "verbose" (length ≥ 4)
set only the verbose flag and abbreviations of "version" (length ≥ 4) set
only the show-version flag; hence -v is not equivalent to -verbose alone
or to -version alone. -/
theorem c10_v_verbose_version :
    (∀ st : PState, match_simple (cl "v") st =
      some { st with options := { st.options with verbose := true }, version := true }) ∧
    (∀ st : PState, match_simple (cl "verb") st =
      some { st with options := { st.options with verbose := true } }) ∧
    (∀ st : PState, match_simple (cl "verbose") st =
      some { st with options := { st.options with verbose := true } }) ∧
    (∀ st : PState, match_simple (cl "vers") st = some { st with version := true }) ∧
    (∀ st : PState, match_simple (cl "version") st = some { st with version := true }) :=
  ⟨fun _ => rfl, fun _ => rfl, fun _ => rfl, fun _ => rfl, fun _ => rfl⟩

end Optipng
